import Mathlib

/-!
Verification of the AgentWatch monitoring-agent core against its source.

Shallow embedding of:
* `src/tools/aws_helpers.py` — credential broker (`_get_cross_account_client`,
  `_get_region`, `_format_account_context`);
* `src/tools/cloudwatch_tools.py` — the seven CloudWatch tools, including the
  log aggregator (`fetch_cloudwatch_logs_for_service`), the log-window analyzer
  (`analyze_log_group`) and the alarm summarizer
  (`get_cloudwatch_alarms_for_service`);
* `src/ambient_agent.py` — the inbound payload handler (`agent_handler`).

AWS calls are modelled by environments passed explicitly; a Python call that
can raise is given type `Except String _` (the `String` is the exception's
message, `str(e)`), and exceptions whose effect in the source is only to be
logged and skipped are modelled as `Option`.  Python string truthiness
(`if s:`) is modelled by `truthy`; the Python substring test `a in b` is
modelled by `strContains`.
-/

/-- Python truthiness of an optional string: `None` and `""` are falsy. -/
def truthy : Option String → Bool
  | none => false
  | some s => !(s == "")

/-- Python `needle in hay` on strings: contiguous-substring containment. -/
def strContains (hay needle : String) : Bool :=
  decide (needle.toList <:+: hay.toList)

/-- Python `s.lower()` (every string lower-cased in the source is ASCII). -/
def strToLower (s : String) : String :=
  ⟨s.data.map Char.toLower⟩

/-- Python `"\n".join(result)`. -/
def joinLines (lines : List String) : String :=
  String.intercalate "\n" lines

theorem strContains_append_right (p m : String) : strContains (p ++ m) m = true := by
  have h : m.toList <:+: (p ++ m).toList := by
    have : (p ++ m).data = p.data ++ m.data := String.data_append p m
    simp only [String.toList, this]
    exact (List.suffix_append p.data m.data).isInfix
  simpa [strContains] using h

/-! ### Credential broker — `src/tools/aws_helpers.py` -/

/-- The environment-provided region sources consulted by `_get_region`:
`os.environ.get('AWS_DEFAULT_REGION')`, `os.environ.get('AWS_REGION')`, and
the boto3 session region (`none` models both absence and a lookup failure,
which the source turns into `pass`). -/
structure RegionEnv where
  awsDefaultRegion : Option String
  awsRegion : Option String
  sessionRegion : Option String
deriving DecidableEq

/-- `_get_region`: environment variables first (`a or b` with Python
truthiness), then the session region, else the hard-coded `us-east-1`. -/
def get_region (env : RegionEnv) : String :=
  if truthy env.awsDefaultRegion then env.awsDefaultRegion.getD ""
  else if truthy env.awsRegion then env.awsRegion.getD ""
  else if truthy env.sessionRegion then env.sessionRegion.getD ""
  else "us-east-1"

/-- The client constructed by `_get_cross_account_client`: either a client on
temporary credentials obtained by assuming a role (the `account_id and
role_name` branch), or a client on the caller's own ambient identity (the
fall-through `boto3.client(service, region_name=target_region)`). -/
inductive BrokerClient where
  | assumed (service region roleArn : String)
  | ambient (service region : String)
deriving DecidableEq

/-- `_get_cross_account_client`.  The role-assumption branch is taken exactly
when **both** `account_id` and `role_name` are truthy; in every other case the
source falls through to an ambient-identity client.  (A failure of the STS
`assume_role` call itself is re-raised by the source and is orthogonal to the
branch selection modelled here.) -/
def get_cross_account_client (service : String)
    (account_id role_name region : Option String) (env : RegionEnv) : BrokerClient :=
  let target_region := if truthy region then region.getD "" else get_region env
  if truthy account_id && truthy role_name then
    .assumed service target_region
      ("arn:aws:iam::" ++ account_id.getD "" ++ ":role/" ++ role_name.getD "")
  else
    .ambient service target_region

/-- `_format_account_context`. -/
def format_account_context (account_id : Option String) : String :=
  if truthy account_id then "account " ++ account_id.getD "" else "current account"

/-! ### Log-window analysis — `analyze_log_group` core -/

def error_keywords : List String := ["error", "fail", "exception", "critical"]

def warning_keywords : List String := ["warning", "warn"]

/-- `any(keyword in message_lower for keyword in keywords)`. -/
def hasAnyKeyword (keywords : List String) (message_lower : String) : Bool :=
  keywords.any (fun k => strContains message_lower k)

/-- A message the analysis loop counts as an error. -/
def is_error_message (msg : String) : Bool :=
  hasAnyKeyword error_keywords (strToLower msg)

/-- A message matching the warning keyword set (tested by the loop only when
the error test failed). -/
def is_warning_message (msg : String) : Bool :=
  hasAnyKeyword warning_keywords (strToLower msg)

/-- The body of the counting loop of `analyze_log_group`: `if any error
keyword: error_count += 1 elif any warning keyword: warning_count += 1`. -/
def countStep (acc : Nat × Nat) (msg : String) : Nat × Nat :=
  let message_lower := strToLower msg
  if hasAnyKeyword error_keywords message_lower then (acc.1 + 1, acc.2)
  else if hasAnyKeyword warning_keywords message_lower then (acc.1, acc.2 + 1)
  else acc

/-- The counting loop of `analyze_log_group`:
`(error_count, warning_count)` over the window. -/
def countErrorsWarnings (events : List String) : Nat × Nat :=
  events.foldl countStep (0, 0)

inductive Verdict where
  | critical
  | elevated
  | healthy
deriving DecidableEq

/-- The quantities `analyze_log_group` reports for a non-empty window. -/
structure Analysis where
  total_events : Nat
  error_count : Nat
  warning_count : Nat
  error_rate : ℚ
  warning_rate : ℚ
  verdict : Verdict
deriving DecidableEq

/-- The analysis body of `analyze_log_group`: early `none` on an empty window
(the "No log events found" return), otherwise counts, rates and the verdict
branch.  Rates and the `0.1` threshold are exact rationals; Python computes
them in double precision, which agrees with the exact value of
`total_events * 0.1` for every reachable `total_events ≤ 1000` (the
`filter_log_events` call passes `limit=1000`). -/
def analyzeEvents (events : List String) : Option Analysis :=
  let total_events := events.length
  if total_events = 0 then none
  else
    let error_count := (countErrorsWarnings events).1
    let warning_count := (countErrorsWarnings events).2
    let error_rate : ℚ :=
      if 0 < total_events then (error_count : ℚ) / (total_events : ℚ) * 100 else 0
    let warning_rate : ℚ :=
      if 0 < total_events then (warning_count : ℚ) / (total_events : ℚ) * 100 else 0
    some
      { total_events := total_events
        error_count := error_count
        warning_count := warning_count
        error_rate := error_rate
        warning_rate := warning_rate
        verdict :=
          if 0 < error_count then .critical
          else if (total_events : ℚ) * 0.1 < (warning_count : ℚ) then .elevated
          else .healthy }

/-! ### Log aggregator — `fetch_cloudwatch_logs_for_service` -/

/-- The static `SERVICE_LOG_GROUPS` table, in source order. -/
def SERVICE_LOG_GROUPS : List (String × List String) :=
  [("lambda", ["/aws/lambda/"]),
   ("ec2", ["/aws/ec2/", "/var/log/"]),
   ("rds", ["/aws/rds/"]),
   ("eks", ["/aws/eks/"]),
   ("apigateway", ["/aws/apigateway/"]),
   ("bedrock", ["/aws/bedrock/"]),
   ("vpc", ["/aws/vpc/"]),
   ("iam", ["/aws/iam/"]),
   ("s3", ["/aws/s3/"]),
   ("cloudtrail", ["/aws/cloudtrail/"]),
   ("waf", ["/aws/waf/"])]

/-- `SERVICE_LOG_GROUPS.get(service_name.lower(), [f"/aws/{service_name}/"])`:
dictionary lookup on the lower-cased name, falling back to a prefix
synthesized from the name as supplied. -/
def log_group_prefixes (service_name : String) : List String :=
  match SERVICE_LOG_GROUPS.find? (fun p => p.1 == strToLower service_name) with
  | some p => p.2
  | none => ["/aws/" ++ service_name ++ "/"]

/-- One raw CloudWatch log event (`timestamp`, `message`). -/
structure LogEvent where
  timestamp : Nat
  message : String
deriving DecidableEq

/-- One entry of the aggregator's `all_logs` list.  The source stores the
ISO-formatted timestamp string; the claims only count and locate entries, so
the raw millisecond timestamp is kept. -/
structure LogEntry where
  timestamp : Nat
  log_group : String
  message : String
deriving DecidableEq

/-- Upstream AWS behaviour seen by one fetch:
`groupsForPrefix p` is the paginated `describe_log_groups` listing for prefix
`p` (pages of log-group names; `none` models the listing call raising, which
the per-prefix `except` turns into `continue`); `eventsForGroup g` is the
`filter_log_events` response for group `g` (`none` models the call raising,
which the per-group `except` turns into `continue`). -/
structure LogsEnv where
  groupsForPrefix : String → Option (List (List String))
  eventsForGroup : String → Option (List LogEvent)

/-- The innermost loop: `for event in events.get("events", []): all_logs.append(...);
if len(all_logs) >= max_events: break`.  Note the append happens before the
cap check, so an iteration entered at or above the cap still appends once. -/
def append_events_loop (max_events : Nat) (group : String) :
    List LogEntry → List LogEvent → List LogEntry
  | all_logs, [] => all_logs
  | all_logs, e :: rest =>
    let all_logs' := all_logs ++
      [{ timestamp := e.timestamp, log_group := group, message := e.message }]
    if max_events ≤ all_logs'.length then all_logs'
    else append_events_loop max_events group all_logs' rest

/-- The per-page loop over log groups.  A `filter_log_events` failure hits the
inner `except ...: continue`, which skips the cap check after the `try`; a
successful group is followed by `if len(all_logs) >= max_events: break`.
The `limit=max_events` argument of `filter_log_events` caps the response. -/
def groups_loop (env : LogsEnv) (max_events : Nat) :
    List LogEntry → List String → List LogEntry
  | all_logs, [] => all_logs
  | all_logs, g :: rest =>
    match env.eventsForGroup g with
    | none => groups_loop env max_events all_logs rest
    | some events =>
      let all_logs' := append_events_loop max_events g all_logs (events.take max_events)
      if max_events ≤ all_logs'.length then all_logs'
      else groups_loop env max_events all_logs' rest

/-- The pagination loop over `describe_log_groups` pages, with its own
`if len(all_logs) >= max_events: break` after each page. -/
def pages_loop (env : LogsEnv) (max_events : Nat) :
    List LogEntry → List (List String) → List LogEntry
  | all_logs, [] => all_logs
  | all_logs, page :: rest =>
    let all_logs' := groups_loop env max_events all_logs page
    if max_events ≤ all_logs'.length then all_logs'
    else pages_loop env max_events all_logs' rest

/-- The outer loop over `log_group_prefixes`.  A listing failure hits the
per-prefix `except ...: continue`.  There is **no** cap check between
prefixes in the source. -/
def prefixes_loop (env : LogsEnv) (max_events : Nat) :
    List LogEntry → List String → List LogEntry
  | all_logs, [] => all_logs
  | all_logs, p :: rest =>
    let all_logs' :=
      match env.groupsForPrefix p with
      | none => all_logs
      | some pages => pages_loop env max_events all_logs pages
    prefixes_loop env max_events all_logs' rest

/-- The complete `all_logs` accumulation of one fetch. -/
def fetch_all_logs (env : LogsEnv) (service_name : String) (max_events : Nat) :
    List LogEntry :=
  prefixes_loop env max_events [] (log_group_prefixes service_name)

/-- The log entries rendered in the fetch's output: `none` for the
"No logs found" message, otherwise the `all_logs[:max_events]` slice the
result loop iterates over. -/
def fetch_output_entries (env : LogsEnv) (service_name : String) (max_events : Nat) :
    Option (List LogEntry) :=
  let all_logs := fetch_all_logs env service_name max_events
  if all_logs.isEmpty then none else some (all_logs.take max_events)

/-! ### Alarm summary — `get_cloudwatch_alarms_for_service` core -/

/-- One `MetricAlarm` of the `describe_alarms` response.  `AlarmName` and
`StateValue` are accessed with `alarm[...]`, `Namespace` and `StateReason`
with `.get`, hence the `Option`s. -/
structure MetricAlarm where
  alarmName : String
  nspace : Option String
  stateValue : String
  stateReason : Option String
deriving DecidableEq

/-- One element of the `service_alarms` list the source builds. -/
structure ServiceAlarm where
  name : String
  state : String
  reason : String
  nspace : String
deriving DecidableEq

/-- The filter test of the `service_alarms` loop:
`service_name.lower() in alarm_name or service_name.lower() in namespace`. -/
def alarmMatches (service_name : String) (alarm : MetricAlarm) : Bool :=
  strContains (strToLower alarm.alarmName) (strToLower service_name)
    || strContains (strToLower (alarm.nspace.getD "")) (strToLower service_name)

/-- The record appended for a kept alarm. -/
def serviceAlarmOf (alarm : MetricAlarm) : ServiceAlarm :=
  { name := alarm.alarmName
    state := alarm.stateValue
    reason := alarm.stateReason.getD "N/A"
    nspace := alarm.nspace.getD "N/A" }

/-- One iteration of the filtering loop: append the alarm's record exactly
when it matches the queried service. -/
def alarmFilterStep (service_name : String) (acc : List ServiceAlarm)
    (alarm : MetricAlarm) : List ServiceAlarm :=
  if alarmMatches service_name alarm then acc ++ [serviceAlarmOf alarm] else acc

/-- The filtering loop building `service_alarms`: keep the alarms whose
lower-cased name or lower-cased namespace contains the lower-cased service
name. -/
def filter_service_alarms (service_name : String) (all_alarms : List MetricAlarm) :
    List ServiceAlarm :=
  all_alarms.foldl (alarmFilterStep service_name) []

/-- The state-grouping loop: `(alarm_ok, in_alarm, insufficient_data)`.
`OK` and `ALARM` are matched exactly; everything else falls into the final
`else` and is counted as insufficient data. -/
def alarmStateStep (acc : Nat × Nat × Nat) (alarm : ServiceAlarm) : Nat × Nat × Nat :=
  if alarm.state == "OK" then (acc.1 + 1, acc.2.1, acc.2.2)
  else if alarm.state == "ALARM" then (acc.1, acc.2.1 + 1, acc.2.2)
  else (acc.1, acc.2.1, acc.2.2 + 1)

def alarm_state_counts (service_alarms : List ServiceAlarm) : Nat × Nat × Nat :=
  service_alarms.foldl alarmStateStep (0, 0, 0)

/-- One iteration of the detail-rendering loop: the state-icon line is always
appended, the `Reason:` line only when the state is exactly `ALARM`. -/
def alarmDetailStep (acc : List String) (alarm : ServiceAlarm) : List String :=
  let state_icon :=
    if alarm.state == "OK" then "" else if alarm.state == "ALARM" then "[!]" else "?"
  let acc' := acc ++ ["  " ++ state_icon ++ " " ++ alarm.name ++ ": " ++ alarm.state]
  if alarm.state == "ALARM" then acc' ++ ["      Reason: " ++ alarm.reason] else acc'

/-- The per-alarm detail lines of the result. -/
def alarm_detail_lines (service_alarms : List ServiceAlarm) : List String :=
  service_alarms.foldl alarmDetailStep []

/-! ### The seven tools as string-valued functions

Each tool wraps its whole body in `try ... except Exception as e: return
error_msg`, so it is a total function into `String`: no exception escapes.
The AWS interaction of the `try` body (client construction plus primary API
call) is modelled as an `Except String` input whose `error` case carries
`str(e)`. -/

/-- `list_cloudwatch_dashboards`; `response` is the `DashboardEntries` list. -/
def list_cloudwatch_dashboards (response : Except String (List String))
    (account_id : Option String) : String :=
  match response with
  | .error e => "Error listing CloudWatch dashboards: " ++ e
  | .ok dashboards =>
    let account_context := format_account_context account_id
    if dashboards.isEmpty then
      "No CloudWatch dashboards found in " ++ account_context ++ "."
    else
      joinLines
        (("Found " ++ toString dashboards.length ++ " CloudWatch dashboard(s) in "
            ++ account_context ++ ":\n")
          :: dashboards.map (fun d => "  - " ++ d))

/-- The `get_dashboard` response fields used by `get_dashboard_summary`. -/
structure DashboardResponse where
  dashboardArn : Option String
  dashboardBody : String
deriving DecidableEq

/-- `get_dashboard_summary`. -/
def get_dashboard_summary (response : Except String DashboardResponse)
    (dashboard_name : String) (account_id : Option String) : String :=
  match response with
  | .error e =>
    "Error getting dashboard summary for \x27" ++ dashboard_name ++ "\x27: " ++ e
  | .ok r =>
    let account_context := format_account_context account_id
    joinLines
      ["Dashboard: " ++ dashboard_name,
       "Account: " ++ account_context,
       "ARN: " ++ r.dashboardArn.getD "N/A",
       "\nConfiguration retrieved successfully."]

/-- The inner per-page collection loop of `list_log_groups`. -/
def log_groups_page_inner (limit : Nat) :
    List String → List String → List String
  | log_groups, [] => log_groups
  | log_groups, g :: rest =>
    let log_groups' := log_groups ++ [g]
    if limit ≤ log_groups'.length then log_groups'
    else log_groups_page_inner limit log_groups' rest

/-- The pagination loop of `list_log_groups`. -/
def log_groups_pages_loop (limit : Nat) :
    List String → List (List String) → List String
  | log_groups, [] => log_groups
  | log_groups, page :: rest =>
    let log_groups' := log_groups_page_inner limit log_groups page
    if limit ≤ log_groups'.length then log_groups'
    else log_groups_pages_loop limit log_groups' rest

/-- `list_log_groups`; `pages` is the paginated `describe_log_groups` result. -/
def list_log_groups (pages : Except String (List (List String)))
    (account_id : Option String) (limit : Nat) : String :=
  match pages with
  | .error e => "Error listing log groups: " ++ e
  | .ok pgs =>
    let account_context := format_account_context account_id
    let log_groups := log_groups_pages_loop limit [] pgs
    if log_groups.isEmpty then
      "No log groups found in " ++ account_context ++ "."
    else
      joinLines
        (("Found " ++ toString log_groups.length ++ " log group(s) in "
            ++ account_context ++ ":\n")
          :: log_groups.map (fun g => "  - " ++ g))

/-- The two output lines per rendered log entry (timestamp rendering of the
source's `isoformat()` is abstracted to the raw value). -/
def render_log_entry (log : LogEntry) : List String :=
  ["[" ++ toString log.timestamp ++ "] " ++ log.log_group,
   "  " ++ log.message.take 200 ++ "...\n"]

/-- `fetch_cloudwatch_logs_for_service`; `client` is the broker call (its
failure is the only exception reaching the outer handler — all API failures
inside the loops are swallowed by the inner handlers, see `LogsEnv`). -/
def fetch_cloudwatch_logs_for_service (client : Except String LogsEnv)
    (service_name : String) (hours : Nat) (account_id : Option String)
    (max_events : Nat) : String :=
  match client with
  | .error e => "Error fetching logs for service \x27" ++ service_name ++ "\x27: " ++ e
  | .ok env =>
    let account_context := format_account_context account_id
    let all_logs := fetch_all_logs env service_name max_events
    if all_logs.isEmpty then
      "No logs found for service \x27" ++ service_name ++ "\x27 in the last "
        ++ toString hours ++ " hour(s) in " ++ account_context ++ "."
    else
      joinLines
        (("Retrieved " ++ toString all_logs.length ++ " log entries for service \x27"
            ++ service_name ++ "\x27 from " ++ account_context ++ ":\n")
          :: (all_logs.take max_events).flatMap render_log_entry)

/-- One-decimal rendering of a (nonnegative) rate, modelling Python's
`f"{rate:.1f}"` on the claims-relevant values. -/
def fmt_rate (q : ℚ) : String :=
  let n := round (q * 10)
  toString (n / 10) ++ "." ++ toString (n % 10)

/-- The result lines of a non-empty `analyze_log_group` window. -/
def analyze_result_lines (log_group_name : String) (hours : Nat)
    (account_context : String) (a : Analysis) : List String :=
  ["Log Group Analysis: " ++ log_group_name,
   "Account: " ++ account_context,
   "Time Range: Last " ++ toString hours ++ " hour(s)",
   "\nSummary:",
   "  Total Events: " ++ toString a.total_events,
   "  Errors: " ++ toString a.error_count ++ " (" ++ fmt_rate a.error_rate ++ "%)",
   "  Warnings: " ++ toString a.warning_count ++ " (" ++ fmt_rate a.warning_rate ++ "%)"]
    ++ [match a.verdict with
        | .critical => "\n[!]  High error rate detected! Investigate immediately."
        | .elevated => "\n[!]  Elevated warning count. Review may be needed."
        | .healthy => "\n Log group appears healthy."]

/-- `analyze_log_group`; `events` is the `filter_log_events` call (messages of
the response's `events`), whose `limit=1000` caps the analyzed window. -/
def analyze_log_group (events : Except String (List String))
    (log_group_name : String) (hours : Nat) (account_id : Option String) : String :=
  match events with
  | .error e =>
    "Error analyzing log group \x27" ++ log_group_name ++ "\x27: " ++ e
  | .ok evs =>
    let account_context := format_account_context account_id
    let log_events := evs.take 1000
    match analyzeEvents log_events with
    | none =>
      "No log events found in \x27" ++ log_group_name ++ "\x27 for the last "
        ++ toString hours ++ " hour(s) in " ++ account_context ++ "."
    | some a => joinLines (analyze_result_lines log_group_name hours account_context a)

/-- `get_cloudwatch_alarms_for_service`; `alarms` is the `describe_alarms`
response's `MetricAlarms`. -/
def get_cloudwatch_alarms_for_service (alarms : Except String (List MetricAlarm))
    (service_name : String) (account_id : Option String) : String :=
  match alarms with
  | .error e =>
    "Error getting CloudWatch alarms for service \x27" ++ service_name ++ "\x27: " ++ e
  | .ok all_alarms =>
    let account_context := format_account_context account_id
    let service_alarms := filter_service_alarms service_name all_alarms
    if service_alarms.isEmpty then
      "No CloudWatch alarms found for service \x27" ++ service_name ++ "\x27 in "
        ++ account_context ++ "."
    else
      let c := alarm_state_counts service_alarms
      joinLines
        (["CloudWatch Alarms for \x27" ++ service_name ++ "\x27 in "
            ++ account_context ++ ":",
          "\nSummary:",
          "  Total Alarms: " ++ toString service_alarms.length,
          "  OK: " ++ toString c.1,
          "  ALARM: " ++ toString c.2.1,
          "  INSUFFICIENT_DATA: " ++ toString c.2.2,
          "\nAlarm Details:"]
          ++ alarm_detail_lines service_alarms)

/-- `setup_cross_account_access`; `identity` is the verification
`get_caller_identity` call under the assumed role, returning
`(Account, Arn)`. -/
def setup_cross_account_access (identity : Except String (String × String))
    (account_id role_name : String) : String :=
  match identity with
  | .error e => "L Failed to setup cross-account access: " ++ e
  | .ok (assumed_account, assumed_arn) =>
    joinLines
      [" Cross-account access verified successfully!",
       "\nTarget Account: " ++ account_id,
       "Role Name: " ++ role_name,
       "Assumed Account: " ++ assumed_account,
       "Assumed Role ARN: " ++ assumed_arn,
       "\nYou can now use this account configuration with other monitoring tools."]

/-! ### Inbound payload handler — `src/ambient_agent.py` -/

/-- The inbound payload: `payload.get("prompt")` and
`payload.get("session_id", "default-session")`. -/
structure Payload where
  prompt : Option String
  session_id : Option String
deriving DecidableEq

/-- One message of the agent's result; `content := none` models a final
message without a `content` attribute (the `hasattr` test). -/
structure AgentMessage where
  content : Option String
deriving DecidableEq

/-- `result = monitoring_agent.invoke(...)`: the `messages` list plus the
`str(result)` rendering used in the fallback error (abstracted to a field). -/
structure InvokeResult where
  messages : List AgentMessage
  raw : String
deriving DecidableEq

/-- The heavyweight work `agent_handler` performs after the prompt check:
lazy `initialize_agent()` and the model/tool-dispatching
`monitoring_agent.invoke` call. -/
inductive AgentAction where
  | initAgent
  | invoke (prompt thread_id : String)
deriving DecidableEq

/-- The agent runtime behind the handler: initialization plus invocation for
a given prompt and thread id; the `error` case is any exception raised by
them, caught by the handler's outer `except`. -/
structure AgentEnv where
  invokeAgent : String → String → Except String InvokeResult

/-- `json.dumps({"error": msg})` for the plain error payloads produced by the
handler (none of whose messages need JSON escaping). -/
def jsonErrorText (msg : String) : String :=
  "\x7b\"error\": \"" ++ msg ++ "\"\x7d"

/-- `agent_handler`.  Returns the response string paired with the list of
heavyweight actions performed (empty on the prompt usage error, which returns
before `initialize_agent()` and before any model or tool activity). -/
def agent_handler (env : AgentEnv) (payload : Payload) : String × List AgentAction :=
  if !truthy payload.prompt then
    (jsonErrorText "No \x27prompt\x27 field found in payload", [])
  else
    let user_prompt := payload.prompt.getD ""
    let thread_id := payload.session_id.getD "default-session"
    let actions := [AgentAction.initAgent, AgentAction.invoke user_prompt thread_id]
    match env.invokeAgent user_prompt thread_id with
    | .error e => (jsonErrorText ("Error processing request: " ++ e), actions)
    | .ok result =>
      match result.messages.getLast? with
      | none =>
        ("\x7b\"error\": \"No valid response from agent\", \"raw_result\": \""
            ++ result.raw ++ "\"\x7d", actions)
      | some final_message =>
        match final_message.content with
        | some response_text => (response_text, actions)
        | none =>
          ("\x7b\"error\": \"No valid response from agent\", \"raw_result\": \""
              ++ result.raw ++ "\"\x7d", actions)

/-! ## Claims -/

/-- A default region environment for concrete instances. -/
def noRegionEnv : RegionEnv := { awsDefaultRegion := none, awsRegion := none, sessionRegion := none }

/-- C1 fails on the code: with `account_id` supplied and `role_name` absent,
`_get_cross_account_client` reports nothing and silently constructs a client
with the caller's own ambient identity (the function has no usage-error
outcome at all — its only non-assumption result is the ambient client). -/
theorem C1_counterexample :
    get_cross_account_client "cloudwatch" (some "123456789012") none none noRegionEnv
      = BrokerClient.ambient "cloudwatch" "us-east-1" := by
  decide

/-- C1 (amended): whenever exactly one of `account_id` and `role_name` is
truthy, the broker silently falls back to a client with the caller's own
ambient identity in the resolved region; no usage error is reported. -/
theorem C1_amended (service : String) (account_id role_name region : Option String)
    (env : RegionEnv) (h : truthy account_id ≠ truthy role_name) :
    get_cross_account_client service account_id role_name region env
      = BrokerClient.ambient service
          (if truthy region then region.getD "" else get_region env) := by
  unfold get_cross_account_client
  cases ha : truthy account_id <;> cases hr : truthy role_name <;> simp_all

/-- Witness for `C1_amended` at a concrete input. -/
theorem C1_amended_witness :
    get_cross_account_client "cloudwatch" (some "123456789012") none none noRegionEnv
      = BrokerClient.ambient "cloudwatch"
          (if truthy none then (none : Option String).getD "" else get_region noRegionEnv) :=
  C1_amended "cloudwatch" (some "123456789012") none none noRegionEnv (by decide)

/-- C2: for every non-empty window, `analyze_log_group` reports
`total_events = len(events)`, the loop's counts, and the verdict obtained by
testing `error_count > 0` first, then `warning_count > total * 0.1`, then
healthy. -/
theorem C2 (events : List String) (h : events ≠ []) :
    (analyzeEvents events).map Analysis.total_events = some events.length ∧
    (analyzeEvents events).map Analysis.error_count = some (countErrorsWarnings events).1 ∧
    (analyzeEvents events).map Analysis.warning_count = some (countErrorsWarnings events).2 ∧
    (analyzeEvents events).map Analysis.verdict
      = some (if 0 < (countErrorsWarnings events).1 then Verdict.critical
          else if (events.length : ℚ) * 0.1 < ((countErrorsWarnings events).2 : ℚ) then
            Verdict.elevated
          else Verdict.healthy) := by
  have hlen : events.length ≠ 0 := by simpa using h
  unfold analyzeEvents
  simp [hlen]

/-- Witness for `C2`: a concrete one-message window. -/
theorem C2_witness :
    (analyzeEvents ["all good"]).map Analysis.total_events = some (["all good"] : List String).length ∧
    (analyzeEvents ["all good"]).map Analysis.error_count = some (countErrorsWarnings ["all good"]).1 ∧
    (analyzeEvents ["all good"]).map Analysis.warning_count = some (countErrorsWarnings ["all good"]).2 ∧
    (analyzeEvents ["all good"]).map Analysis.verdict
      = some (if 0 < (countErrorsWarnings ["all good"]).1 then Verdict.critical
          else if ((["all good"] : List String).length : ℚ) * 0.1
              < ((countErrorsWarnings ["all good"]).2 : ℚ) then Verdict.elevated
          else Verdict.healthy) :=
  C2 ["all good"] (by decide)

/-- The counting loop, characterized: starting from any accumulator, it adds
the number of error-keyword messages to the first component and the number of
messages matching a warning keyword but no error keyword to the second. -/
theorem foldl_countStep (events : List String) : ∀ ab : Nat × Nat,
    events.foldl countStep ab
      = (ab.1 + (events.filter (fun m => is_error_message m)).length,
         ab.2 + (events.filter (fun m => !is_error_message m && is_warning_message m)).length) := by
  induction events with
  | nil => intro ab; simp
  | cons m rest ih =>
    intro ab
    rw [List.foldl_cons, ih]
    by_cases he : hasAnyKeyword error_keywords (strToLower m) <;>
      by_cases hw : hasAnyKeyword warning_keywords (strToLower m) <;>
        simp [countStep, is_error_message, is_warning_message, he, hw, List.filter_cons] <;>
          omega

/-- The two filtered message classes together never outnumber the window. -/
theorem filtered_counts_le_length (events : List String) :
    (events.filter (fun m => is_error_message m)).length
      + (events.filter (fun m => !is_error_message m && is_warning_message m)).length
      ≤ events.length := by
  induction events with
  | nil => simp
  | cons m rest ih =>
    by_cases he : is_error_message m <;> by_cases hw : is_warning_message m <;>
      simp [List.filter_cons, he, hw] <;> omega

/-- C3: the analysis loop counts a message as an error exactly when its
lower-casing contains one of `{"error","fail","exception","critical"}`, as a
warning exactly when it is not an error and its lower-casing contains one of
`{"warning","warn"}` (so a message matching both sets is counted once, as an
error), and therefore `error_count + warning_count ≤ total_events`. -/
theorem C3 (events : List String) :
    (countErrorsWarnings events).1
        = (events.filter (fun m => is_error_message m)).length ∧
    (countErrorsWarnings events).2
        = (events.filter (fun m => !is_error_message m && is_warning_message m)).length ∧
    (countErrorsWarnings events).1 + (countErrorsWarnings events).2 ≤ events.length := by
  have h := foldl_countStep events (0, 0)
  have hsum := filtered_counts_le_length events
  unfold countErrorsWarnings
  rw [h]
  simpa using hsum

/-! Length lemmas for the aggregator loops. -/

theorem append_events_loop_mono (maxE : Nat) (g : String) (evs : List LogEvent) :
    ∀ acc : List LogEntry, acc.length ≤ (append_events_loop maxE g acc evs).length := by
  induction evs with
  | nil => intro acc; simp [append_events_loop]
  | cons e rest ih =>
    intro acc
    simp only [append_events_loop]
    split
    · simp
    · exact le_trans (by simp) (ih _)

theorem append_events_loop_le (maxE : Nat) (g : String) (evs : List LogEvent) :
    ∀ acc : List LogEntry, acc.length < maxE →
      (append_events_loop maxE g acc evs).length ≤ maxE := by
  induction evs with
  | nil => intro acc h; simpa [append_events_loop] using le_of_lt h
  | cons e rest ih =>
    intro acc h
    simp only [append_events_loop]
    split
    · simpa using h
    · exact ih _ (by omega)

theorem append_events_loop_le_succ (maxE : Nat) (g : String) (evs : List LogEvent)
    (acc : List LogEntry) (h : maxE ≤ acc.length) :
    (append_events_loop maxE g acc evs).length ≤ acc.length + 1 := by
  cases evs with
  | nil => simp [append_events_loop]
  | cons e rest =>
    simp only [append_events_loop]
    split
    · simp
    · simp_all; omega

theorem groups_loop_mono (env : LogsEnv) (maxE : Nat) (gs : List String) :
    ∀ acc : List LogEntry, acc.length ≤ (groups_loop env maxE acc gs).length := by
  induction gs with
  | nil => intro acc; simp [groups_loop]
  | cons g rest ih =>
    intro acc
    simp only [groups_loop]
    cases env.eventsForGroup g with
    | none => exact ih acc
    | some evs =>
      simp only
      split
      · exact append_events_loop_mono ..
      · exact le_trans (append_events_loop_mono ..) (ih _)

theorem groups_loop_le (env : LogsEnv) (maxE : Nat) (gs : List String) :
    ∀ acc : List LogEntry, acc.length < maxE →
      (groups_loop env maxE acc gs).length ≤ maxE := by
  induction gs with
  | nil => intro acc h; simpa [groups_loop] using le_of_lt h
  | cons g rest ih =>
    intro acc h
    simp only [groups_loop]
    cases env.eventsForGroup g with
    | none => exact ih acc h
    | some evs =>
      simp only
      split
      · exact append_events_loop_le maxE g _ acc h
      · next hlt =>
        exact ih _ (by omega)

theorem groups_loop_le_succ (env : LogsEnv) (maxE : Nat) (gs : List String) :
    ∀ acc : List LogEntry, maxE ≤ acc.length →
      (groups_loop env maxE acc gs).length ≤ acc.length + 1 := by
  induction gs with
  | nil => intro acc _; simp [groups_loop]
  | cons g rest ih =>
    intro acc h
    simp only [groups_loop]
    cases env.eventsForGroup g with
    | none => exact le_trans (ih acc h) (by omega)
    | some evs =>
      simp only
      split
      · exact append_events_loop_le_succ maxE g _ acc h
      · next hlt =>
        exact absurd (le_trans h (append_events_loop_mono ..)) hlt

theorem pages_loop_mono (env : LogsEnv) (maxE : Nat) (pages : List (List String)) :
    ∀ acc : List LogEntry, acc.length ≤ (pages_loop env maxE acc pages).length := by
  induction pages with
  | nil => intro acc; simp [pages_loop]
  | cons page rest ih =>
    intro acc
    simp only [pages_loop]
    split
    · exact groups_loop_mono ..
    · exact le_trans (groups_loop_mono ..) (ih _)

theorem pages_loop_le (env : LogsEnv) (maxE : Nat) (pages : List (List String)) :
    ∀ acc : List LogEntry, acc.length < maxE →
      (pages_loop env maxE acc pages).length ≤ maxE := by
  induction pages with
  | nil => intro acc h; simpa [pages_loop] using le_of_lt h
  | cons page rest ih =>
    intro acc h
    simp only [pages_loop]
    split
    · exact groups_loop_le env maxE page acc h
    · next hlt => exact ih _ (by omega)

theorem pages_loop_le_succ (env : LogsEnv) (maxE : Nat) (pages : List (List String))
    (acc : List LogEntry) (h : maxE ≤ acc.length) :
    (pages_loop env maxE acc pages).length ≤ acc.length + 1 := by
  cases pages with
  | nil => simp [pages_loop]
  | cons page rest =>
    simp only [pages_loop]
    split
    · exact groups_loop_le_succ env maxE page acc h
    · next hlt =>
      exact absurd (le_trans h (groups_loop_mono ..)) hlt

theorem prefixes_loop_le (env : LogsEnv) (maxE : Nat) (ps : List String) :
    ∀ acc : List LogEntry, maxE ≤ acc.length →
      (prefixes_loop env maxE acc ps).length ≤ acc.length + ps.length := by
  induction ps with
  | nil => intro acc _; simp [prefixes_loop]
  | cons p rest ih =>
    intro acc h
    simp only [prefixes_loop]
    cases env.groupsForPrefix p with
    | none =>
      simp only
      exact le_trans (ih acc h) (by simp only [List.length_cons]; omega)
    | some pages =>
      simp only
      have h1 : maxE ≤ (pages_loop env maxE acc pages).length :=
        le_trans h (pages_loop_mono ..)
      have h2 := pages_loop_le_succ env maxE pages acc h
      exact le_trans (ih _ h1) (by simp only [List.length_cons]; omega)

theorem prefixes_loop_lt (env : LogsEnv) (maxE : Nat) (ps : List String) :
    ∀ acc : List LogEntry, acc.length < maxE →
      (prefixes_loop env maxE acc ps).length < maxE + ps.length := by
  induction ps with
  | nil => intro acc h; simpa [prefixes_loop] using h
  | cons p rest ih =>
    intro acc h
    simp only [prefixes_loop]
    cases env.groupsForPrefix p with
    | none =>
      simp only
      exact lt_of_lt_of_le (ih acc h) (by simp only [List.length_cons]; omega)
    | some pages =>
      simp only
      have hle := pages_loop_le env maxE pages acc h
      rcases lt_or_eq_of_le hle with hlt | heq
      · exact lt_of_lt_of_le (ih _ hlt) (by simp only [List.length_cons]; omega)
      · have := prefixes_loop_le env maxE rest _ (le_of_eq heq.symm)
        simp only [heq] at this ⊢
        calc (prefixes_loop env maxE (pages_loop env maxE acc pages) rest).length
            ≤ maxE + rest.length := by omega
          _ < maxE + (rest.length + 1) := by omega

/-- C4: whenever the aggregator produces output entries (`max_events = N > 0`),
it renders at most `N` of them — the result loop iterates over
`all_logs[:max_events]` — regardless of how many prefixes, groups and events
the upstream environment holds. -/
theorem C4 (env : LogsEnv) (service_name : String) (N : Nat) (h : 0 < N)
    (out : List LogEntry) (hout : fetch_output_entries env service_name N = some out) :
    out.length ≤ N := by
  unfold fetch_output_entries at hout
  by_cases he : (fetch_all_logs env service_name N).isEmpty
  · simp [he] at hout
  · simp only [he, if_false, Option.some.injEq, Bool.false_eq_true] at hout
    subst hout
    simp [List.length_take]

/-- A two-prefix upstream for concrete instances: the `ec2` prefixes
`/aws/ec2/` and `/var/log/` hold one single-group page each, with one event
per group. -/
def demoLogsEnv : LogsEnv where
  groupsForPrefix := fun p =>
    if p == "/aws/ec2/" then some [["groupA"]]
    else if p == "/var/log/" then some [["groupB"]]
    else some []
  eventsForGroup := fun g =>
    if g == "groupA" then some [{ timestamp := 1, message := "alpha" }]
    else if g == "groupB" then some [{ timestamp := 2, message := "beta" }]
    else some []

/-- Witness for `C4`: at `max_events = 1` the rendered output of the demo
fetch is the single earliest-discovered entry. -/
theorem C4_witness :
    ([{ timestamp := 1, log_group := "groupA", message := "alpha" }] : List LogEntry).length ≤ 1 :=
  C4 demoLogsEnv "ec2" 1 (by decide)
    [{ timestamp := 1, log_group := "groupA", message := "alpha" }] (by decide)

/-- C5 fails on the code: with `max_events = 1` the cap is already reached
inside the first `ec2` prefix (`/aws/ec2/`, group `groupA`), yet the loop
still lists the second prefix `/var/log/`, fetches events from `groupB`
and appends one of them — remaining prefixes are neither skipped nor left
unfetched. -/
theorem C5_counterexample :
    fetch_all_logs demoLogsEnv "ec2" 1
      = [{ timestamp := 1, log_group := "groupA", message := "alpha" },
         { timestamp := 2, log_group := "groupB", message := "beta" }] ∧
    (fetch_all_logs demoLogsEnv "ec2" 1).length = 2 := by
  decide

/-- C5 (amended): reaching the cap stops iteration within the current prefix
(remaining groups and pages are skipped there), but the prefix loop itself has
no cap check: each later prefix is still listed and fetched and can append at
most one further entry, so the accumulated list is bounded by
`max_events + (#prefixes - 1)`; only the rendered output is truncated to
`max_events`. -/
theorem C5_amended (env : LogsEnv) (service_name : String) (N : Nat) (h : 0 < N) :
    (fetch_all_logs env service_name N).length
      ≤ N + ((log_group_prefixes service_name).length - 1) := by
  have hlt := prefixes_loop_lt env N (log_group_prefixes service_name) [] (by simpa using h)
  unfold fetch_all_logs
  omega

/-- Witness for `C5_amended` on the demo environment: 2 ≤ 1 + (2 - 1). -/
theorem C5_amended_witness :
    (fetch_all_logs demoLogsEnv "ec2" 1).length
      ≤ 1 + ((log_group_prefixes "ec2").length - 1) :=
  C5_amended demoLogsEnv "ec2" 1 (by decide)

/-- Keys of the static table are pairwise distinct, so `find?` retrieves the
unique entry of a present key. -/
theorem service_table_find (key : String) (ps : List String)
    (hk : (key, ps) ∈ SERVICE_LOG_GROUPS) :
    SERVICE_LOG_GROUPS.find? (fun p => p.1 == key) = some (key, ps) := by
  simp only [SERVICE_LOG_GROUPS, List.mem_cons, List.not_mem_nil, or_false] at hk
  rcases hk with h|h|h|h|h|h|h|h|h|h|h <;>
    (have h1 := congrArg Prod.fst h; have h2 := congrArg Prod.snd h;
     simp only at h1 h2; subst h1; subst h2; decide)

/-- C6: a service name whose lower-cased form is a key of
`SERVICE_LOG_GROUPS` resolves to exactly the table's prefix list — e.g.
`"lambda"` to `["/aws/lambda/"]` — while a name whose lower-cased form is not
a key resolves to exactly the one synthesized prefix `/aws/{service}/` built
from the name as supplied. -/
theorem C6 (service other : String) (ps : List String)
    (hk : (strToLower service, ps) ∈ SERVICE_LOG_GROUPS)
    (hu : strToLower other ∉ SERVICE_LOG_GROUPS.map Prod.fst) :
    log_group_prefixes service = ps ∧
    log_group_prefixes other = ["/aws/" ++ other ++ "/"] ∧
    log_group_prefixes "lambda" = ["/aws/lambda/"] := by
  refine ⟨?_, ?_, by decide⟩
  · unfold log_group_prefixes
    rw [service_table_find (strToLower service) ps hk]
  · unfold log_group_prefixes
    have hnone : SERVICE_LOG_GROUPS.find? (fun p => p.1 == strToLower other) = none := by
      rw [List.find?_eq_none]
      intro x hx
      simp only [beq_iff_eq]
      intro heq
      exact hu (heq ▸ List.mem_map_of_mem Prod.fst hx)
    rw [hnone]

/-- Witness for `C6`: `"Lambda"` lower-cases to the key `"lambda"`;
`"kinesis"` is not a key and synthesizes `/aws/kinesis/`. -/
theorem C6_witness :
    log_group_prefixes "Lambda" = ["/aws/lambda/"] ∧
    log_group_prefixes "kinesis" = ["/aws/kinesis/"] ∧
    log_group_prefixes "lambda" = ["/aws/lambda/"] :=
  C6 "Lambda" "kinesis" ["/aws/lambda/"] (by decide) (by decide)

/-- C7: each of the seven catalog tools is a total function into `String` —
its whole body sits inside `try ... except`, so no exception propagates to the
caller — and when the underlying AWS interaction fails with message `msg`,
the returned string is that tool's error message, which contains `msg` as a
substring. -/
theorem C7 (msg : String) (account_id : Option String)
    (dashboard_name service_name log_group_name : String)
    (hours limit max_events : Nat) (acct role : String) :
    strContains (list_cloudwatch_dashboards (.error msg) account_id) msg = true ∧
    strContains (get_dashboard_summary (.error msg) dashboard_name account_id) msg = true ∧
    strContains (list_log_groups (.error msg) account_id limit) msg = true ∧
    strContains
      (fetch_cloudwatch_logs_for_service (.error msg) service_name hours account_id max_events)
      msg = true ∧
    strContains (analyze_log_group (.error msg) log_group_name hours account_id) msg = true ∧
    strContains (get_cloudwatch_alarms_for_service (.error msg) service_name account_id) msg = true ∧
    strContains (setup_cross_account_access (.error msg) acct role) msg = true :=
  ⟨strContains_append_right _ _, strContains_append_right _ _,
   strContains_append_right _ _, strContains_append_right _ _,
   strContains_append_right _ _, strContains_append_right _ _,
   strContains_append_right _ _⟩

/-- C8: a payload whose `prompt` is missing or empty makes `agent_handler`
return exactly the JSON text `\x7b"error": "No \x27prompt\x27 field found in
payload"\x7d` before `initialize_agent()` runs and before any tool dispatch or
model invocation (the action trace is empty). -/
theorem C8 (env : AgentEnv) (payload : Payload)
    (h : payload.prompt = none ∨ payload.prompt = some "") :
    agent_handler env payload
      = ("\x7b\"error\": \"No \x27prompt\x27 field found in payload\"\x7d", []) := by
  rcases h with h | h <;> simp [agent_handler, truthy, h, jsonErrorText]

/-- A trivial agent runtime for concrete instances. -/
def demoAgentEnv : AgentEnv :=
  { invokeAgent := fun _ _ => .ok { messages := [], raw := "raw" } }

/-- Witness for `C8` at the missing-prompt payload. -/
theorem C8_witness :
    agent_handler demoAgentEnv { prompt := none, session_id := none }
      = ("\x7b\"error\": \"No \x27prompt\x27 field found in payload\"\x7d", []) :=
  C8 demoAgentEnv { prompt := none, session_id := none } (Or.inl rfl)

/-- An included alarm whose state is neither `OK`, `ALARM` nor
`INSUFFICIENT_DATA`. -/
def pendingAlarm : MetricAlarm :=
  { alarmName := "lambda-latency", nspace := none,
    stateValue := "PENDING", stateReason := some "threshold" }

/-- C9 fails on the code: the third bucket is not an exact state match — an
included alarm in state `"PENDING"` is counted under `INSUFFICIENT_DATA`
although no included alarm's state string equals `"INSUFFICIENT_DATA"`,
because the source's grouping ends in a catch-all `else`. -/
theorem C9_counterexample :
    (alarm_state_counts (filter_service_alarms "lambda" [pendingAlarm])).2.2 = 1 ∧
    (filter_service_alarms "lambda" [pendingAlarm]).filter
        (fun x => x.state == "INSUFFICIENT_DATA") = [] := by
  decide

/-- The grouping loop, characterized over any starting accumulator. -/
theorem foldl_alarmStateStep (sas : List ServiceAlarm) : ∀ acc : Nat × Nat × Nat,
    sas.foldl alarmStateStep acc
      = (acc.1 + (sas.filter (fun x => x.state == "OK")).length,
         acc.2.1 + (sas.filter (fun x => x.state == "ALARM")).length,
         acc.2.2 + (sas.filter (fun x => x.state != "OK" && x.state != "ALARM")).length) := by
  induction sas with
  | nil => intro acc; simp
  | cons a rest ih =>
    intro acc
    rw [List.foldl_cons, ih]
    by_cases h1 : a.state == "OK" <;> by_cases h2 : a.state == "ALARM" <;>
      simp_all [alarmStateStep, List.filter_cons] <;> omega

/-- The filtering loop, characterized over any starting accumulator: the kept
records are exactly those of the matching alarms, in order. -/
theorem foldl_alarmFilterStep (service_name : String) (alarms : List MetricAlarm) :
    ∀ acc : List ServiceAlarm,
      alarms.foldl (alarmFilterStep service_name) acc
        = acc ++ (alarms.filter (fun a => alarmMatches service_name a)).map serviceAlarmOf := by
  induction alarms with
  | nil => intro acc; simp
  | cons a rest ih =>
    intro acc
    rw [List.foldl_cons, ih]
    by_cases h : alarmMatches service_name a <;>
      simp [alarmFilterStep, List.filter_cons, h]

/-- The detail-rendering loop, characterized over any starting accumulator:
each alarm contributes its state-icon line, followed by a `Reason:` line
exactly when its state is `ALARM`. -/
theorem foldl_alarmDetailStep (sas : List ServiceAlarm) : ∀ acc : List String,
    sas.foldl alarmDetailStep acc
      = acc ++ sas.flatMap (fun x =>
          ["  " ++ (if x.state == "OK" then "" else if x.state == "ALARM" then "[!]" else "?")
              ++ " " ++ x.name ++ ": " ++ x.state]
            ++ (if x.state == "ALARM" then ["      Reason: " ++ x.reason] else [])) := by
  induction sas with
  | nil => intro acc; simp
  | cons x rest ih =>
    intro acc
    rw [List.foldl_cons, ih]
    by_cases h1 : x.state = "OK"
    · by_cases h2 : x.state = "ALARM"
      · rw [h1] at h2; exact absurd h2 (by decide)
      · simp [alarmDetailStep, h1, h2]
    · by_cases h2 : x.state = "ALARM"
      · simp [alarmDetailStep, h1, h2]
      · simp [alarmDetailStep, h1, h2]

/-- C9 (amended): the summary includes exactly the alarms whose lower-cased
name or namespace contains the lower-cased service name (the `service_alarms`
list equals the matching alarms' records, in order); the `OK` and `ALARM`
buckets count exact state matches, while the `INSUFFICIENT_DATA` bucket counts
every other included alarm (whatever its state string); and the rendered
detail lines are exactly one state line per included alarm followed by a
`Reason:` line carrying its `StateReason` if and only if its state is exactly
`ALARM`. -/
theorem C9_amended (service_name : String) (alarms : List MetricAlarm) :
    filter_service_alarms service_name alarms
      = (alarms.filter (fun a => alarmMatches service_name a)).map serviceAlarmOf ∧
    (alarm_state_counts (filter_service_alarms service_name alarms)).1
      = ((filter_service_alarms service_name alarms).filter
          (fun y => y.state == "OK")).length ∧
    (alarm_state_counts (filter_service_alarms service_name alarms)).2.1
      = ((filter_service_alarms service_name alarms).filter
          (fun y => y.state == "ALARM")).length ∧
    (alarm_state_counts (filter_service_alarms service_name alarms)).2.2
      = ((filter_service_alarms service_name alarms).filter
          (fun y => y.state != "OK" && y.state != "ALARM")).length ∧
    alarm_detail_lines (filter_service_alarms service_name alarms)
      = (filter_service_alarms service_name alarms).flatMap (fun x =>
          ["  " ++ (if x.state == "OK" then "" else if x.state == "ALARM" then "[!]" else "?")
              ++ " " ++ x.name ++ ": " ++ x.state]
            ++ (if x.state == "ALARM" then ["      Reason: " ++ x.reason] else [])) := by
  refine ⟨?_, ?_, ?_, ?_, ?_⟩
  · unfold filter_service_alarms
    rw [foldl_alarmFilterStep]
    simp
  · unfold alarm_state_counts
    rw [foldl_alarmStateStep]
    simp
  · unfold alarm_state_counts
    rw [foldl_alarmStateStep]
    simp
  · unfold alarm_state_counts
    rw [foldl_alarmStateStep]
    simp
  · unfold alarm_detail_lines
    rw [foldl_alarmDetailStep]
    simp

/-- C10: an empty window makes `analyze_log_group` return the
"No log events found" message early, and whenever an analysis is produced its
window is non-empty and its percentage rates are exactly the divisions by
`total_events` — so the divisions are only ever taken with a positive
divisor. -/
theorem C10 (emptyWindow window : List String) (log_group_name : String)
    (hours : Nat) (account_id : Option String) (hempty : emptyWindow = []) :
    analyzeEvents emptyWindow = none ∧
    analyze_log_group (Except.ok emptyWindow) log_group_name hours account_id
      = "No log events found in \x27" ++ log_group_name ++ "\x27 for the last "
        ++ toString hours ++ " hour(s) in " ++ format_account_context account_id ++ "." ∧
    (analyzeEvents window).map (fun a => decide (0 < a.total_events))
      = (analyzeEvents window).map (fun _ => true) ∧
    (analyzeEvents window).map Analysis.error_rate
      = (analyzeEvents window).map
          (fun a => (a.error_count : ℚ) / (a.total_events : ℚ) * 100) ∧
    (analyzeEvents window).map Analysis.warning_rate
      = (analyzeEvents window).map
          (fun a => (a.warning_count : ℚ) / (a.total_events : ℚ) * 100) := by
  subst hempty
  refine ⟨by simp [analyzeEvents], by simp [analyze_log_group, analyzeEvents], ?_, ?_, ?_⟩ <;>
    · by_cases hw : window.length = 0
      · simp [analyzeEvents, hw]
      · simp [analyzeEvents, hw, Nat.pos_of_ne_zero hw]

/-- Witness for `C10` at an empty and a one-message window. -/
theorem C10_witness :
    analyzeEvents [] = none ∧
    analyze_log_group (Except.ok []) "my-group" 2 none
      = "No log events found in \x27" ++ "my-group" ++ "\x27 for the last "
        ++ toString 2 ++ " hour(s) in " ++ format_account_context none ++ "." ∧
    (analyzeEvents ["an error happened"]).map (fun a => decide (0 < a.total_events))
      = (analyzeEvents ["an error happened"]).map (fun _ => true) ∧
    (analyzeEvents ["an error happened"]).map Analysis.error_rate
      = (analyzeEvents ["an error happened"]).map
          (fun a => (a.error_count : ℚ) / (a.total_events : ℚ) * 100) ∧
    (analyzeEvents ["an error happened"]).map Analysis.warning_rate
      = (analyzeEvents ["an error happened"]).map
          (fun a => (a.warning_count : ℚ) / (a.total_events : ℚ) * 100) :=
  C10 [] ["an error happened"] "my-group" 2 none rfl
